import Mathlib

/-!
Verification of the Slayer Profitability Engine of the OSRS-Dashboard
repository, a shallow embedding of
`osrs_gp_tracker/backend/utils/calculations.py` and the price-averaging
helper of `osrs_gp_tracker/backend/utils/ge_api.py`.

Numbers are modelled as exact rationals (Python floats idealised as `ℚ`);
Python `round` is modelled as round-half-to-even; dictionaries are modelled
as association lists looked up with `List.lookup` (first match), and the
catalog records carry every key the engine reads, so `dict.get` defaults
never fire and each field is total.
-/

section RatReduction

attribute [local semireducible] Rat.add Rat.mul Rat.sub Rat.inv Rat.ofScientific

namespace OSRS

/-- Python `round(q)`: nearest integer, ties to even (banker rounding). -/
def pyRound (q : ℚ) : ℤ :=
  let n : ℤ := Rat.floor q
  let frac : ℚ := q - n
  if frac < 1/2 then n
  else if frac = 1/2 then (if n % 2 = 0 then n else n + 1)
  else n + 1

/-- Python `round(q, d)`: round to `d` decimal digits, ties to even. -/
def pyRoundTo (q : ℚ) (d : ℕ) : ℚ :=
  (pyRound (q * 10 ^ d) : ℚ) / 10 ^ d

/-- Python substring test `pat in s`, on the character lists of the strings. -/
def strContains (s pat : String) : Bool :=
  s.data.tails.any (fun t => pat.data.isPrefixOf t)

/-- A price record returned by the price API: optional high and low sides
(`ge_api.get_ge_price` result for one item). -/
structure PriceData where
  high : Option ℚ
  low : Option ℚ
deriving DecidableEq

/-- The price oracle: `ge_api.get_ge_price`, `none` when the fetch fails or
the API has no record for the item. -/
abbrev PriceOracle := ℕ → Option PriceData

/-- `ge_api.get_average_price`: mean of the present sides, one present side,
or `none` when neither side is present. -/
def get_average_price (p : PriceData) : Option ℚ :=
  match p.high, p.low with
  | some h, some l => some ((h + l) / 2)
  | some h, none => some h
  | none, some l => some l
  | none, none => none

/-- One entry of a drop table tier.  `item_id = 0` models a missing or falsy
`item_id` key (skipped by the valuator). -/
structure DropEntry where
  item_id : ℕ
  quantity_range : ℚ × ℚ
  probability : ℚ
deriving DecidableEq

/-- A tiered drop table (`drop_table` of a monster record). -/
structure DropTable where
  always : List DropEntry
  common : List DropEntry
  rare : List DropEntry
  very_rare : List DropEntry
deriving DecidableEq

/-- Inner loop of `calculate_expected_loot` over the concatenated tier
lists.  A drop whose price record exists but has neither side makes
`get_average_price` return `None`; the subsequent multiplication raises
`TypeError` in the source, which its handler converts to the fallback
value `1000`, discarding the accumulator. -/
def lootAux (ge : PriceOracle) : List DropEntry → ℚ → ℚ
  | [], acc => acc
  | d :: rest, acc =>
    if d.item_id = 0 then lootAux ge rest acc
    else
      match ge d.item_id with
      | none => lootAux ge rest acc
      | some pd =>
        match get_average_price pd with
        | none => 1000
        | some price =>
          lootAux ge rest
            (acc + price * ((d.quantity_range.1 + d.quantity_range.2) / 2) * d.probability)

/-- `calculations.calculate_expected_loot`: expected GP per kill of a drop
table, iterating the tiers in source order. -/
def calculate_expected_loot (ge : PriceOracle) (dt : DropTable) : ℚ :=
  lootAux ge (dt.always ++ dt.common ++ dt.rare ++ dt.very_rare) 0

/-- The user skill levels the engine reads (`user_*_level` keys of
`calc_params`). -/
structure UserStats where
  user_slayer_level : ℚ
  user_combat_level : ℚ
  user_attack_level : ℚ
  user_strength_level : ℚ
  user_defence_level : ℚ
  user_ranged_level : ℚ
  user_magic_level : ℚ
deriving DecidableEq

/-- Request-scoped overrides (`user_params` from Firestore), keyed
parameter map with numeric values. -/
abbrev Overrides := String → Option ℚ

/-- A monster (target) catalog record with every key the engine reads. -/
structure Monster where
  name : String
  wiki_slug : String
  slayer_level_req : ℚ
  combat_level : ℚ
  combat_level_req : ℚ
  weakness : String
  drop_table : DropTable
  base_kph_range : ℚ × ℚ
  common_supply_cost_per_hour_base : ℚ
deriving DecidableEq

/-- The monster catalog (`item_db.get_global_items('slayer', 'monsters')`),
a dictionary slug → record. -/
abbrev Catalog := List (String × Monster)

/-- Mean of `base_kph_range` (`base_kph` in `estimate_kph`). -/
def baseKph (m : Monster) : ℚ :=
  (m.base_kph_range.1 + m.base_kph_range.2) / 2

/-- `calculations.estimate_kph`: overrides short-circuit the heuristic;
otherwise base rate times combat, slayer and weakness factors, clamped to
half..one-and-a-half of the base rate. -/
def estimate_kph (m : Monster) (u : UserStats) (ov : Overrides) : ℚ :=
  match ov ("kph_" ++ m.wiki_slug) with
  | some v => v
  | none =>
    let combat_efficiency : ℚ :=
      min 1.1 (max 0.6 (u.user_combat_level / max m.combat_level 80))
    let slayer_bonus : ℚ :=
      1 + min 0.1 ((u.user_slayer_level - m.slayer_level_req) / 200)
    let w := m.weakness.toLower
    let weakness_bonus : ℚ :=
      if strContains w "melee" || strContains w "slash" || strContains w "crush" then
        1 + ((u.user_attack_level + u.user_strength_level) / 2 - 70) / 300
      else if strContains w "ranged" then
        1 + (u.user_ranged_level - 70) / 300
      else if strContains w "magic" then
        1 + (u.user_magic_level - 70) / 300
      else 1
    let adjusted_kph := baseKph m * combat_efficiency * slayer_bonus * weakness_bonus
    max (baseKph m * 0.5) (min (baseKph m * 1.5) adjusted_kph)

/-- `calculations.adjust_supply_cost`: override multiplier, else a
combat-level efficiency factor clamped to `[0.7, 1.3]`. -/
def adjust_supply_cost (base_cost : ℚ) (u : UserStats) (ov : Overrides) : ℚ :=
  match ov "supply_cost_multiplier" with
  | some mult => base_cost * mult
  | none =>
    base_cost * max 0.7 (min 1.3 (1 - (u.user_combat_level - 90) / 200))

/-- A slayer master (dispenser) catalog record.  `task_assignments` and
`avg_task_quantity` are the dictionaries slug → weight and
slug → quantity range, kept in insertion order. -/
structure Master where
  name : String
  combat_req : ℚ
  slayer_req : ℚ
  task_assignments : List (String × ℚ)
  avg_task_quantity : List (String × (ℚ × ℚ))
deriving DecidableEq

/-- The request parameters of `calculate_slayer_gp_hr` after the merge with
its defaults (`calc_params`). -/
structure SlayerParams where
  calculation_mode : String
  slayer_master_id : String
  specific_monster_id : Option String
  user : UserStats
deriving DecidableEq

/-- One record of `task_details`, built per processed task in breakdown
mode (rounded display values, as stored by the source). -/
structure TaskDetail where
  monster_name : String
  assignment_probability : ℚ
  estimated_kph : ℚ
  expected_loot_per_kill : ℤ
  avg_task_quantity : ℤ
  task_time_hours : ℚ
  task_gp_hr : ℤ
  weighted_contribution : ℤ
deriving DecidableEq

/-- The loop state of the assignment loop of `calculate_slayer_gp_hr`:
`total_weighted_gp_hr`, `total_probability` and `task_details`. -/
structure TaskAcc where
  total_weighted : ℚ
  total_prob : ℚ
  details : List TaskDetail
deriving DecidableEq

/-- Mean of a quantity range pair (`sum(range) / 2` in the source). -/
def meanRange (r : ℚ × ℚ) : ℚ := (r.1 + r.2) / 2

/-- One iteration of the assignment loop of `calculate_slayer_gp_hr`.
Skips the task when the monster is missing or the slayer requirement is
unmet; a zero kill rate or a zero task time raises `ZeroDivisionError` in
the source, which the per-task handler turns into a skip as well. -/
def processTask (monsters : Catalog) (ge : PriceOracle) (u : UserStats)
    (ov : Overrides) (mode : String) (master : Master)
    (acc : TaskAcc) (p : String × ℚ) : TaskAcc :=
  match monsters.lookup p.1 with
  | none => acc
  | some mi =>
    if u.user_slayer_level < mi.slayer_level_req then acc
    else
      let estimated_kph := estimate_kph mi u ov
      let expected_loot_per_kill := calculate_expected_loot ge mi.drop_table
      let task_quantity_range := (master.avg_task_quantity.lookup p.1).getD (100, 150)
      let avg_task_quantity := meanRange task_quantity_range
      if estimated_kph = 0 then acc
      else
        let base_task_time_hours := avg_task_quantity / estimated_kph
        let total_task_time_hours := base_task_time_hours + 1/10
        let base_supply_cost := mi.common_supply_cost_per_hour_base
        let adjusted_supply_cost := adjust_supply_cost base_supply_cost u ov
        let task_supply_cost := adjusted_supply_cost * total_task_time_hours
        let task_revenue := expected_loot_per_kill * avg_task_quantity
        let task_profit := task_revenue - task_supply_cost
        if total_task_time_hours = 0 then acc
        else
          let task_gp_hr := task_profit / total_task_time_hours
          let weighted_gp_hr := task_gp_hr * p.2
          { total_weighted := acc.total_weighted + weighted_gp_hr
            total_prob := acc.total_prob + p.2
            details :=
              if mode = "breakdown" then
                acc.details ++ [{
                  monster_name := mi.name
                  assignment_probability := p.2
                  estimated_kph := pyRoundTo estimated_kph 1
                  expected_loot_per_kill := pyRound expected_loot_per_kill
                  avg_task_quantity := pyRound avg_task_quantity
                  task_time_hours := pyRoundTo total_task_time_hours 2
                  task_gp_hr := pyRound task_gp_hr
                  weighted_contribution := pyRound weighted_gp_hr }]
              else acc.details }

/-- The assignment loop of `calculate_slayer_gp_hr` over
`task_assignments.items()`. -/
def runTasks (monsters : Catalog) (ge : PriceOracle) (u : UserStats)
    (ov : Overrides) (mode : String) (master : Master)
    (ts : List (String × ℚ)) (acc : TaskAcc) : TaskAcc :=
  ts.foldl (processTask monsters ge u ov mode master) acc

/-- The `requirements` record of a master-level requirement failure. -/
structure ReqInfo where
  combat_required : ℚ
  slayer_required : ℚ
  user_combat : ℚ
  user_slayer : ℚ
deriving DecidableEq

/-- The success record of the expected and breakdown modes. -/
structure ExpectedOutput where
  gp_hr : ℤ
  master_name : String
  total_assignment_probability : ℚ
  eligible_tasks : ℕ
  task_breakdown : Option (List TaskDetail)
deriving DecidableEq

/-- The success record of the specific mode. -/
structure SpecificOutput where
  gp_hr : ℤ
  monster_name : String
  kills_per_hour : ℚ
  loot_per_kill : ℤ
  hourly_revenue : ℤ
  supply_cost_per_hour : ℤ
  slayer_required : ℚ
  combat_required : ℚ
deriving DecidableEq

/-- The discriminated result of `calculate_slayer_gp_hr` and
`calculate_specific_monster_gp_hr`: the source returns dictionaries whose
shape discriminates the outcome (`error` alone; `error` plus a
`requirements` record, with `gp_hr` pinned to 0; or the mode-specific
success record). -/
inductive SlayerResult where
  | failure (msg : String)
  | masterReqNotMet (msg : String) (reqs : ReqInfo)
  | monsterReqNotMet (msg : String) (slayer_required user_slayer : ℚ)
  | expectedOk (o : ExpectedOutput)
  | specificOk (o : SpecificOutput)
deriving DecidableEq

/-- Stable insertion into a list sorted descending by an integer key. -/
def insertDesc (key : α → ℤ) (x : α) : List α → List α
  | [] => [x]
  | y :: ys => if key x ≤ key y then y :: insertDesc key x ys else x :: y :: ys

/-- Stable descending sort by an integer key (Python `sorted(...,
reverse=True)`). -/
def sortDesc (key : α → ℤ) : List α → List α
  | [] => []
  | x :: xs => insertDesc key x (sortDesc key xs)

/-- `calculations.calculate_specific_monster_gp_hr`. -/
def calculate_specific_monster_gp_hr (monsters : Catalog) (ge : PriceOracle)
    (monster_id : String) (u : UserStats) (ov : Overrides) : SlayerResult :=
  match monsters.lookup monster_id with
  | none => .failure ("Monster " ++ monster_id ++ " not found")
  | some mi =>
    let slayer_req := mi.slayer_level_req
    if u.user_slayer_level < slayer_req then
      .monsterReqNotMet ("Insufficient Slayer level for " ++ mi.name)
        slayer_req u.user_slayer_level
    else
      let estimated_kph := estimate_kph mi u ov
      let expected_loot_per_kill := calculate_expected_loot ge mi.drop_table
      let adjusted_supply_cost :=
        adjust_supply_cost mi.common_supply_cost_per_hour_base u ov
      let hourly_revenue := estimated_kph * expected_loot_per_kill
      let gp_hr := hourly_revenue - adjusted_supply_cost
      .specificOk {
        gp_hr := pyRound gp_hr
        monster_name := mi.name
        kills_per_hour := pyRoundTo estimated_kph 1
        loot_per_kill := pyRound expected_loot_per_kill
        hourly_revenue := pyRound hourly_revenue
        supply_cost_per_hour := pyRound adjusted_supply_cost
        slayer_required := slayer_req
        combat_required := mi.combat_level_req }

/-- `calculations.calculate_slayer_gp_hr`: mode dispatch, master lookup and
gate, assignment loop, and final renormalised weighted mean. -/
def calculate_slayer_gp_hr (monsters : Catalog)
    (masters : List (String × Master)) (ge : PriceOracle)
    (params : SlayerParams) (ov : Overrides) : SlayerResult :=
  if params.calculation_mode = "specific" then
    match params.specific_monster_id with
    | none => .failure "Specific monster ID required for specific mode"
    | some id =>
      if id = "" then .failure "Specific monster ID required for specific mode"
      else calculate_specific_monster_gp_hr monsters ge id params.user ov
  else
    match masters.lookup params.slayer_master_id with
    | none => .failure "Slayer master data not found"
    | some master =>
      if params.user.user_combat_level < master.combat_req ∨
          params.user.user_slayer_level < master.slayer_req then
        .masterReqNotMet ("User does not meet requirements for " ++ master.name)
          { combat_required := master.combat_req
            slayer_required := master.slayer_req
            user_combat := params.user.user_combat_level
            user_slayer := params.user.user_slayer_level }
      else
        let acc := runTasks monsters ge params.user ov params.calculation_mode
          master master.task_assignments ⟨0, 0, []⟩
        let final_gp_hr :=
          if 0 < acc.total_prob then acc.total_weighted / acc.total_prob else 0
        .expectedOk {
          gp_hr := pyRound final_gp_hr
          master_name := master.name
          total_assignment_probability := pyRoundTo acc.total_prob 3
          eligible_tasks := (acc.details.filter (fun t => 0 < t.task_gp_hr)).length
          task_breakdown :=
            if params.calculation_mode = "breakdown" then
              some (sortDesc TaskDetail.weighted_contribution acc.details)
            else none }

/-- The user levels dictionary given to `get_slayer_task_breakdown`
(`slayer_level`, `combat_level`, ... keys). -/
structure UserLevels where
  slayer_level : ℚ
  combat_level : ℚ
  attack_level : ℚ
  strength_level : ℚ
  defence_level : ℚ
  ranged_level : ℚ
  magic_level : ℚ
deriving DecidableEq

/-- The `monster_params` dictionary the assembler builds from the user
levels (same level values under the `user_*_level` keys). -/
def toUserStats (l : UserLevels) : UserStats :=
  { user_slayer_level := l.slayer_level
    user_combat_level := l.combat_level
    user_attack_level := l.attack_level
    user_strength_level := l.strength_level
    user_defence_level := l.defence_level
    user_ranged_level := l.ranged_level
    user_magic_level := l.magic_level }

/-- One per-assignment record of the assembler (rounded display values as
stored; the `requirements` display string of the source is omitted). -/
structure AssignmentInfo where
  monster_name : String
  monster_id : String
  weight : ℚ
  probability : ℚ
  slayer_requirement : ℚ
  combat_requirement : ℚ
  kills_per_hour : ℚ
  avg_loot_value_per_kill : ℤ
  supply_cost_per_hour : ℤ
  gp_per_hour : ℤ
  avg_task_length : ℤ
  time_per_task_hours : ℚ
  gp_per_task : ℤ
deriving DecidableEq

/-- Builds the per-assignment record of `get_slayer_task_breakdown` for an
eligible assignment (probability still 0; it is filled in afterwards). -/
def mkAssignment (ge : PriceOracle) (master : Master) (u : UserStats)
    (ov : Overrides) (slug : String) (w : ℚ) (mi : Monster) : AssignmentInfo :=
  let kills_per_hour := estimate_kph mi u ov
  let avg_loot_value := calculate_expected_loot ge mi.drop_table
  let supply_cost := adjust_supply_cost mi.common_supply_cost_per_hour_base u ov
  let gp_per_hour := kills_per_hour * avg_loot_value - supply_cost
  let task_quantity_range := (master.avg_task_quantity.lookup slug).getD (100, 150)
  let avg_task_length := meanRange task_quantity_range
  let time_per_task_hours :=
    if 0 < kills_per_hour then avg_task_length / kills_per_hour else 1
  let gp_per_task := gp_per_hour * time_per_task_hours
  { monster_name := mi.name
    monster_id := slug
    weight := w
    probability := 0
    slayer_requirement := mi.slayer_level_req
    combat_requirement := mi.combat_level_req
    kills_per_hour := pyRoundTo kills_per_hour 1
    avg_loot_value_per_kill := pyRound avg_loot_value
    supply_cost_per_hour := pyRound supply_cost
    gp_per_hour := pyRound gp_per_hour
    avg_task_length := pyRound avg_task_length
    time_per_task_hours := pyRoundTo time_per_task_hours 2
    gp_per_task := pyRound gp_per_task }

/-- One iteration of the eligibility filter loop of the assembler: both
the slayer and the combat requirement of the target are checked; an
eligible assignment record is appended and its weight added. -/
def assignStep (monsters : Catalog) (ge : PriceOracle) (master : Master)
    (u : UserStats) (ov : Overrides) (acc : List AssignmentInfo × ℚ)
    (p : String × ℚ) : List AssignmentInfo × ℚ :=
  match monsters.lookup p.1 with
  | none => acc
  | some mi =>
    if mi.slayer_level_req ≤ u.user_slayer_level ∧
        mi.combat_level_req ≤ u.user_combat_level then
      (acc.1 ++ [mkAssignment ge master u ov p.1 p.2 mi], acc.2 + p.2)
    else acc

/-- The eligibility filter loop of the assembler over the assignment
table. -/
def collectAssignments (monsters : Catalog) (ge : PriceOracle)
    (master : Master) (u : UserStats) (ov : Overrides)
    (ts : List (String × ℚ)) : List AssignmentInfo × ℚ :=
  ts.foldl (assignStep monsters ge master u ov) ([], 0)

/-- The overall summary record of the assembler. -/
structure BreakdownOverall where
  expected_gp_per_hour : ℤ
  avg_gp_per_task : ℤ
  tasks_per_hour : ℚ
  available_tasks : ℕ
  total_possible_tasks : ℕ
deriving DecidableEq

/-- The result of `get_slayer_task_breakdown`. -/
inductive BreakdownResult where
  | failure (msg : String)
  | ok (master_name master_id : String) (assignments : List AssignmentInfo)
      (overall : BreakdownOverall)
deriving DecidableEq

/-- `calculations.get_slayer_task_breakdown`: the independently-implemented
breakdown assembler. -/
def get_slayer_task_breakdown (monsters : Catalog)
    (masters : List (String × Master)) (ge : PriceOracle)
    (slayer_master_id : String) (user_levels : UserLevels)
    (ov : Overrides) : BreakdownResult :=
  match masters.lookup slayer_master_id with
  | none => .failure ("Slayer master " ++ slayer_master_id ++ " not found")
  | some master =>
    if monsters.isEmpty then .failure "No monster data found"
    else
      let u := toUserStats user_levels
      let collected := collectAssignments monsters ge master u ov master.task_assignments
      let total_weight := collected.2
      let eligible_assignments := collected.1.map (fun a =>
        { a with probability := if 0 < total_weight then a.weight / total_weight else 0 })
      let overall :=
        if eligible_assignments.isEmpty then
          { expected_gp_per_hour := 0
            avg_gp_per_task := 0
            tasks_per_hour := 0
            available_tasks := 0
            total_possible_tasks := master.task_assignments.length
            : BreakdownOverall }
        else
          let expected_gp_per_hour : ℚ :=
            (eligible_assignments.map (fun a => (a.gp_per_hour : ℚ) * a.probability)).sum
          let avg_gp_per_task : ℚ :=
            (eligible_assignments.map (fun a => (a.gp_per_task : ℚ) * a.probability)).sum
          let avg_time_per_task : ℚ :=
            (eligible_assignments.map (fun a => a.time_per_task_hours * a.probability)).sum
          let tasks_per_hour : ℚ :=
            if 0 < avg_time_per_task then 1 / avg_time_per_task else 0
          { expected_gp_per_hour := pyRound expected_gp_per_hour
            avg_gp_per_task := pyRound avg_gp_per_task
            tasks_per_hour := pyRoundTo tasks_per_hour 2
            available_tasks := eligible_assignments.length
            total_possible_tasks := master.task_assignments.length }
      .ok master.name slayer_master_id
        (sortDesc AssignmentInfo.gp_per_hour eligible_assignments) overall

/-! Specification-side definitions: the quantities the spec describes,
written as direct sums over the eligible subset of the assignment table.
The theorems below relate the loop-based engine definitions to these. -/

/-- Aggregator eligibility of one assignment `(slug, weight)`: the target
is present in the catalog and the user meets its slayer requirement. -/
def eligibleTask (monsters : Catalog) (u : UserStats) (p : String × ℚ) : Bool :=
  match monsters.lookup p.1 with
  | none => false
  | some mi => decide (mi.slayer_level_req ≤ u.user_slayer_level)

/-- Mean task quantity for a slug (default range `[100, 150]`). -/
def taskQty (master : Master) (slug : String) : ℚ :=
  meanRange ((master.avg_task_quantity.lookup slug).getD (100, 150))

/-- Task time: mean quantity over kill rate plus the fixed 0.1 h
travel/banking overhead. -/
def taskTime (master : Master) (u : UserStats) (ov : Overrides)
    (slug : String) (mi : Monster) : ℚ :=
  taskQty master slug / estimate_kph mi u ov + 1/10

/-- Adjusted supply cost of a monster for this user. -/
def taskCost (u : UserStats) (ov : Overrides) (mi : Monster) : ℚ :=
  adjust_supply_cost mi.common_supply_cost_per_hour_base u ov

/-- Per-task GP per hour: `(loot·qty − cost·time) / time`. -/
def taskGpHr (ge : PriceOracle) (master : Master) (u : UserStats)
    (ov : Overrides) (slug : String) (mi : Monster) : ℚ :=
  (calculate_expected_loot ge mi.drop_table * taskQty master slug -
    taskCost u ov mi * taskTime master u ov slug mi) / taskTime master u ov slug mi

/-- Per-task GP per hour looked up by slug (0 for a missing monster; only
applied to eligible slugs). -/
def taskGpHrSlug (monsters : Catalog) (ge : PriceOracle) (master : Master)
    (u : UserStats) (ov : Overrides) (slug : String) : ℚ :=
  match monsters.lookup slug with
  | some mi => taskGpHr ge master u ov slug mi
  | none => 0

/-- The eligible subset of an assignment list, in order. -/
def eligList (monsters : Catalog) (u : UserStats) (ts : List (String × ℚ)) :
    List (String × ℚ) :=
  ts.filter (eligibleTask monsters u)

/-- Sum of the eligible assignment weights, `Σ(weight)`. -/
def eligWeight (monsters : Catalog) (u : UserStats)
    (ts : List (String × ℚ)) : ℚ :=
  ((eligList monsters u ts).map Prod.snd).sum

/-- Weighted sum of per-task GP per hour over the eligible subset,
`Σ(task_gp_hr · weight)`. -/
def eligGpWeight (monsters : Catalog) (ge : PriceOracle) (master : Master)
    (u : UserStats) (ov : Overrides) (ts : List (String × ℚ)) : ℚ :=
  ((eligList monsters u ts).map
    (fun p => taskGpHrSlug monsters ge master u ov p.1 * p.2)).sum

/-- The breakdown detail record of an eligible task, as the loop stores
it. -/
def specDetail (ge : PriceOracle) (master : Master) (u : UserStats)
    (ov : Overrides) (slug : String) (w : ℚ) (mi : Monster) : TaskDetail :=
  { monster_name := mi.name
    assignment_probability := w
    estimated_kph := pyRoundTo (estimate_kph mi u ov) 1
    expected_loot_per_kill := pyRound (calculate_expected_loot ge mi.drop_table)
    avg_task_quantity := pyRound (taskQty master slug)
    task_time_hours := pyRoundTo (taskTime master u ov slug mi) 2
    task_gp_hr := pyRound (taskGpHr ge master u ov slug mi)
    weighted_contribution := pyRound (taskGpHr ge master u ov slug mi * w) }

/-- `specDetail` looked up by slug (dummy for a missing monster; only
applied to eligible slugs). -/
def specDetailSlug (monsters : Catalog) (ge : PriceOracle) (master : Master)
    (u : UserStats) (ov : Overrides) (p : String × ℚ) : TaskDetail :=
  match monsters.lookup p.1 with
  | some mi => specDetail ge master u ov p.1 p.2 mi
  | none => ⟨"", 0, 0, 0, 0, 0, 0, 0⟩

/-- The details list the loop accumulates: the eligible tasks in order in
breakdown mode, nothing otherwise. -/
def specDetails (monsters : Catalog) (ge : PriceOracle) (master : Master)
    (u : UserStats) (ov : Overrides) (mode : String)
    (ts : List (String × ℚ)) : List TaskDetail :=
  if mode = "breakdown" then
    (eligList monsters u ts).map (specDetailSlug monsters ge master u ov)
  else []

/-- An assignment is safe when, if eligible, its kill rate and task time
are nonzero, so the loop body raises no `ZeroDivisionError`. -/
def safeTask (monsters : Catalog) (master : Master) (u : UserStats)
    (ov : Overrides) (p : String × ℚ) : Bool :=
  match monsters.lookup p.1 with
  | none => true
  | some mi =>
    if mi.slayer_level_req ≤ u.user_slayer_level then
      decide (estimate_kph mi u ov ≠ 0 ∧ taskTime master u ov p.1 mi ≠ 0)
    else true

/-- Assembler eligibility: target present and both its slayer and combat
requirements met. -/
def eligibleTaskB (monsters : Catalog) (u : UserStats) (p : String × ℚ) : Bool :=
  match monsters.lookup p.1 with
  | none => false
  | some mi =>
    decide (mi.slayer_level_req ≤ u.user_slayer_level ∧
      mi.combat_level_req ≤ u.user_combat_level)

/-- The eligible subset seen by the assembler. -/
def eligListB (monsters : Catalog) (u : UserStats) (ts : List (String × ℚ)) :
    List (String × ℚ) :=
  ts.filter (eligibleTaskB monsters u)

/-- Sum of the eligible weights seen by the assembler. -/
def eligWeightB (monsters : Catalog) (u : UserStats)
    (ts : List (String × ℚ)) : ℚ :=
  ((eligListB monsters u ts).map Prod.snd).sum

/-- `mkAssignment` looked up by slug (dummy for a missing monster; only
applied to eligible slugs). -/
def mkAssignmentSlug (monsters : Catalog) (ge : PriceOracle) (master : Master)
    (u : UserStats) (ov : Overrides) (p : String × ℚ) : AssignmentInfo :=
  match monsters.lookup p.1 with
  | some mi => mkAssignment ge master u ov p.1 p.2 mi
  | none => ⟨"", "", 0, 0, 0, 0, 0, 0, 0, 0, 0, 0, 0⟩

/-- The probability fill-in pass of the assembler: each record gets
`weight / total_weight` (0 when the total is not positive). -/
def withProbs (total_weight : ℚ) (l : List AssignmentInfo) : List AssignmentInfo :=
  l.map (fun a =>
    { a with probability := if 0 < total_weight then a.weight / total_weight else 0 })

/-- The assembler's eligible assignment records with probabilities, in
assignment order. -/
def asgProbList (monsters : Catalog) (ge : PriceOracle) (master : Master)
    (u : UserStats) (ov : Overrides) (ts : List (String × ℚ)) :
    List AssignmentInfo :=
  withProbs (eligWeightB monsters u ts)
    ((eligListB monsters u ts).map (mkAssignmentSlug monsters ge master u ov))

/-- `Σ gp_per_hour · probability` over assignment records (rounded
per-assignment gp values, exact probabilities). -/
def asgGpSum (l : List AssignmentInfo) : ℚ :=
  (l.map (fun a => (a.gp_per_hour : ℚ) * a.probability)).sum

/-- `Σ gp_per_task · probability` over assignment records. -/
def asgGpTaskSum (l : List AssignmentInfo) : ℚ :=
  (l.map (fun a => (a.gp_per_task : ℚ) * a.probability)).sum

/-- `Σ time_per_task · probability` over assignment records (rounded
per-assignment times, exact probabilities). -/
def asgTimeSum (l : List AssignmentInfo) : ℚ :=
  (l.map (fun a => a.time_per_task_hours * a.probability)).sum

/-- Result projections used to state properties of specific outcomes. -/
def resGpHr : SlayerResult → Option ℤ
  | .expectedOk o => some o.gp_hr
  | .specificOk o => some o.gp_hr
  | _ => none

/-- Projection: `eligible_tasks` of an aggregate success result. -/
def resEligibleTasks : SlayerResult → Option ℕ
  | .expectedOk o => some o.eligible_tasks
  | _ => none

/-- Projection: `total_assignment_probability` of an aggregate success
result. -/
def resTotalProb : SlayerResult → Option ℚ
  | .expectedOk o => some o.total_assignment_probability
  | _ => none

/-- Projection: the overall summary of an assembler result. -/
def brOverall : BreakdownResult → Option BreakdownOverall
  | .ok _ _ _ o => some o
  | .failure _ => none

/-- Projection: the assignment list of an assembler result. -/
def brAssignments : BreakdownResult → Option (List AssignmentInfo)
  | .ok _ _ a _ => some a
  | .failure _ => none

/-- The clamp the spec describes: `x` clipped to `[lo, hi]`. -/
def clamp (x lo hi : ℚ) : ℚ := min hi (max lo x)

/-! Concrete inputs used to instantiate the theorems. -/

/-- A one-entry drop table: one guaranteed drop of item `i`. -/
def dtOf (i : ℕ) : DropTable := ⟨[⟨i, (1, 1), 1⟩], [], [], []⟩

/-- Price oracle: item 526 at 2 gp, item 527 at 4 gp, item 560 at 10.04
gp; nothing else. -/
def geB : PriceOracle := fun i =>
  if i = 526 then some ⟨some 2, some 2⟩
  else if i = 527 then some ⟨some 4, some 4⟩
  else if i = 560 then some ⟨some 10.04, some 10.04⟩
  else none

/-- Price oracle with a record for item 4151 that has neither a high nor a
low side (an untraded item, as the live API reports it). -/
def geBad : PriceOracle := fun i =>
  if i = 4151 then some ⟨none, none⟩ else none

/-- Drop table with one certain drop of the sideless-priced item 4151. -/
def dtBad : DropTable := ⟨[⟨4151, (1, 1), 1⟩], [], [], []⟩

/-- Empty override map. -/
def ovNone : Overrides := fun _ => none

/-- Overrides fixing the kill rates of slugs `m1` and `m2` at 100/h. -/
def ovB : Overrides := fun k =>
  if k = "kph_m1" then some 100
  else if k = "kph_m2" then some 100
  else none

/-- Override fixing the kill rate of slug `mc` at 50/h. -/
def ovC : Overrides := fun k => if k = "kph_mc" then some 50 else none

/-- Override fixing the kill rate of slug `mx` at 10/h. -/
def ovX : Overrides := fun k => if k = "kph_mx" then some 10 else none

/-- Supply-cost multiplier override of 1.5. -/
def ovM : Overrides := fun k =>
  if k = "supply_cost_multiplier" then some 1.5 else none

/-- A user at slayer 85, combat 100 (the defaults of the source). -/
def userB : UserStats := ⟨85, 100, 80, 80, 75, 85, 80⟩

/-- A user at slayer 50, combat 100 (Scenario D). -/
def userD : UserStats := ⟨50, 100, 80, 80, 75, 85, 80⟩

/-- The same levels as `userB`, keyed as the assembler receives them. -/
def levelsB : UserLevels := ⟨85, 100, 80, 80, 75, 85, 80⟩

/-- Monster `m1`: no requirements, cost-free, drops item 526. -/
def mB1 : Monster := ⟨"M One", "m1", 1, 100, 1, "", dtOf 526, (30, 40), 0⟩

/-- Monster `m2`: no requirements, cost-free, drops item 527. -/
def mB2 : Monster := ⟨"M Two", "m2", 1, 100, 1, "", dtOf 527, (30, 40), 0⟩

/-- Monster `mc`: no requirements, cost-free, drops item 526. -/
def mC1 : Monster := ⟨"M Cex", "mc", 1, 100, 1, "", dtOf 526, (30, 40), 0⟩

/-- Monster `mx`: no requirements, cost-free, drops item 560. -/
def mX : Monster := ⟨"M X", "mx", 1, 100, 1, "", dtOf 560, (30, 40), 0⟩

/-- A slayer-75 monster (Scenario D). -/
def mSmoke : Monster :=
  ⟨"Smoke Devil", "smoke_devil", 75, 100, 1, "", dtOf 526, (30, 40), 0⟩

/-- A slayer-99 monster, ineligible for `userB`. -/
def mHydra : Monster := ⟨"Hydra", "hydra", 99, 100, 1, "", dtOf 526, (30, 40), 0⟩

/-- Catalog with `m1` and `m2`. -/
def monstersB : Catalog := [("m1", mB1), ("m2", mB2)]

/-- Catalog with `mc` only. -/
def monstersC : Catalog := [("mc", mC1)]

/-- Catalog with the slayer-75 monster only. -/
def monstersD : Catalog := [("smoke_devil", mSmoke)]

/-- Catalog with `m1` and the slayer-75 monster. -/
def monstersD6 : Catalog := [("m1", mB1), ("smoke_devil", mSmoke)]

/-- Catalog with the slayer-99 monster only. -/
def monstersE : Catalog := [("hydra", mHydra)]

/-- Catalog with `mx` only. -/
def monstersX : Catalog := [("mx", mX)]

/-- Scenario B dispenser: weights 0.6 / 0.4, task quantities 10 each. -/
def masterB : Master :=
  ⟨"Spria", 0, 0, [("m1", 0.6), ("m2", 0.4)], [("m1", (10, 10)), ("m2", (10, 10))]⟩

/-- Master list holding the Scenario B dispenser under id `spria`. -/
def mastersB : List (String × Master) := [("spria", masterB)]

/-- Scenario B request in expected mode. -/
def paramsB : SlayerParams := ⟨"expected", "spria", none, userB⟩

/-- Dispenser with a single task of weight 1 whose task GP/hour is the
non-integer 200/3. -/
def masterC1 : Master := ⟨"Duradel", 0, 0, [("mc", 1)], [("mc", (10, 10))]⟩

/-- Master list holding `masterC1` under id `dur`. -/
def mastersC : List (String × Master) := [("dur", masterC1)]

/-- Expected-mode request against `masterC1`. -/
def paramsC : SlayerParams := ⟨"expected", "dur", none, userB⟩

/-- Dispenser with two eligible tasks of weight 0.0002 each (their sum
0.0004 rounds to 0 at 3 decimals). -/
def masterC2 : Master :=
  ⟨"Nieve", 0, 0, [("m1", 0.0002), ("m2", 0.0002)],
    [("m1", (10, 10)), ("m2", (10, 10))]⟩

/-- Master list holding `masterC2` under id `nieve`. -/
def mastersC2 : List (String × Master) := [("nieve", masterC2)]

/-- Expected-mode request against `masterC2`. -/
def paramsC2 : SlayerParams := ⟨"expected", "nieve", none, userB⟩

/-- Dispenser whose only task requires slayer 99: no eligible task for
`userB`. -/
def masterE : Master := ⟨"Krystilia", 0, 0, [("hydra", 0.5)], [("hydra", (10, 10))]⟩

/-- Master list holding `masterE` under id `kry`. -/
def mastersE : List (String × Master) := [("kry", masterE)]

/-- Expected-mode request against `masterE`. -/
def paramsE : SlayerParams := ⟨"expected", "kry", none, userB⟩

/-- Dispenser requiring combat 110 and slayer 50: `userB` (combat 100)
fails the gate. -/
def masterHard : Master := ⟨"Duradel", 110, 50, [("m1", 1)], [("m1", (10, 10))]⟩

/-- Master list holding `masterHard` under id `duradel`. -/
def mastersH : List (String × Master) := [("duradel", masterHard)]

/-- Expected-mode request against `masterHard`. -/
def paramsH : SlayerParams := ⟨"expected", "duradel", none, userB⟩

/-- Specific-mode request of `userD` for the slayer-75 monster. -/
def paramsD : SlayerParams := ⟨"specific", "spria", some "smoke_devil", userD⟩

/-- Dispenser whose table contains an assignment `userD` is not eligible
for (slayer 75 required) besides an eligible one. -/
def masterDrop1 : Master :=
  ⟨"Mix", 0, 0, [("m1", 0.6), ("smoke_devil", 0.4)], [("m1", (10, 10))]⟩

/-- The same dispenser with the ineligible assignment removed. -/
def masterDrop2 : Master := ⟨"Mix", 0, 0, [("m1", 0.6)], [("m1", (10, 10))]⟩

/-- Master list holding `masterDrop1` under id `mix`. -/
def mastersDrop1 : List (String × Master) := [("mix", masterDrop1)]

/-- Master list holding `masterDrop2` under id `mix`. -/
def mastersDrop2 : List (String × Master) := [("mix", masterDrop2)]

/-- Expected-mode request of `userD` against the `mix` dispenser. -/
def paramsDrop : SlayerParams := ⟨"expected", "mix", none, userD⟩

/-- Dispenser with a single weight-1 task on `mx` whose true GP/hour is
the non-integer 100.4. -/
def masterX : Master := ⟨"Chaeldar", 0, 0, [("mx", 1)], [("mx", (10, 10))]⟩

/-- Master list holding `masterX` under id `cha`. -/
def mastersX : List (String × Master) := [("cha", masterX)]

/-! Helper lemmas relating the loop-based definitions to the direct sums. -/

theorem processTask_not_eligible {monsters : Catalog} {ge : PriceOracle}
    {u : UserStats} {ov : Overrides} {mode : String} {master : Master}
    {acc : TaskAcc} {p : String × ℚ}
    (h : eligibleTask monsters u p = false) :
    processTask monsters ge u ov mode master acc p = acc := by
  unfold eligibleTask at h
  unfold processTask
  cases hl : monsters.lookup p.1 with
  | none => simp
  | some mi =>
    rw [hl] at h
    simp only [decide_eq_false_iff_not, not_le] at h
    simp [h]

theorem processTask_eligible {monsters : Catalog} {ge : PriceOracle}
    {u : UserStats} {ov : Overrides} {mode : String} {master : Master}
    {acc : TaskAcc} {p : String × ℚ} {mi : Monster}
    (hl : monsters.lookup p.1 = some mi)
    (hreq : mi.slayer_level_req ≤ u.user_slayer_level)
    (hk : estimate_kph mi u ov ≠ 0)
    (ht : taskTime master u ov p.1 mi ≠ 0) :
    processTask monsters ge u ov mode master acc p =
      { total_weighted := acc.total_weighted + taskGpHr ge master u ov p.1 mi * p.2
        total_prob := acc.total_prob + p.2
        details :=
          if mode = "breakdown" then
            acc.details ++ [specDetail ge master u ov p.1 p.2 mi]
          else acc.details } := by
  have ht' : ¬(meanRange ((master.avg_task_quantity.lookup p.1).getD (100, 150)) /
      estimate_kph mi u ov + 1/10 = 0) := by
    simpa [taskTime, taskQty] using ht
  unfold processTask
  rw [hl]
  simp only [if_neg (not_lt.2 hreq), if_neg hk, if_neg ht']
  simp only [taskGpHr, taskTime, taskQty, taskCost, specDetail]

theorem eligibleTask_false_safe {monsters : Catalog} {master : Master}
    {u : UserStats} {ov : Overrides} {p : String × ℚ}
    (h : eligibleTask monsters u p = false) :
    safeTask monsters master u ov p = true := by
  unfold eligibleTask at h
  unfold safeTask
  cases hl : monsters.lookup p.1 with
  | none => simp
  | some mi =>
    rw [hl] at h
    simp only [decide_eq_false_iff_not, not_le] at h
    simp [not_le.2 h]

theorem runTasks_safe_eq {monsters : Catalog} {ge : PriceOracle}
    {u : UserStats} {ov : Overrides} {mode : String} {master : Master}
    (ts : List (String × ℚ))
    (hsafe : ∀ p ∈ ts, safeTask monsters master u ov p = true)
    (acc : TaskAcc) :
    runTasks monsters ge u ov mode master ts acc =
      { total_weighted := acc.total_weighted + eligGpWeight monsters ge master u ov ts
        total_prob := acc.total_prob + eligWeight monsters u ts
        details := acc.details ++ specDetails monsters ge master u ov mode ts } := by
  induction ts generalizing acc with
  | nil =>
    cases acc
    simp [runTasks, eligGpWeight, eligWeight, eligList, specDetails]
  | cons p ts ih =>
    have hp := hsafe p (List.mem_cons_self p ts)
    have hrest : ∀ q ∈ ts, safeTask monsters master u ov q = true :=
      fun q hq => hsafe q (List.mem_cons_of_mem p hq)
    have hstep : runTasks monsters ge u ov mode master (p :: ts) acc =
        runTasks monsters ge u ov mode master ts
          (processTask monsters ge u ov mode master acc p) := rfl
    cases he : eligibleTask monsters u p with
    | false =>
      rw [hstep, processTask_not_eligible he, ih hrest acc]
      simp [eligGpWeight, eligWeight, eligList, specDetails, List.filter_cons, he]
    | true =>
      have he' := he
      unfold eligibleTask at he'
      cases hl : monsters.lookup p.1 with
      | none => rw [hl] at he'; simp at he'
      | some mi =>
        rw [hl] at he'
        simp only [decide_eq_true_eq] at he'
        have hp' := hp
        unfold safeTask at hp'
        rw [hl] at hp'
        simp only [if_pos he', decide_eq_true_eq] at hp'
        rw [hstep, processTask_eligible hl he' hp'.1 hp'.2, ih hrest _]
        simp only [TaskAcc.mk.injEq]
        refine ⟨?_, ?_, ?_⟩
        · simp [eligGpWeight, eligList, List.filter_cons, he, taskGpHrSlug, hl]
          ring
        · simp [eligWeight, eligList, List.filter_cons, he]
          ring
        · by_cases hm : mode = "breakdown"
          · simp [specDetails, hm, eligList, List.filter_cons, he,
              specDetailSlug, hl, List.append_assoc]
          · simp [specDetails, hm]

theorem assignStep_not_eligible {monsters : Catalog} {ge : PriceOracle}
    {master : Master} {u : UserStats} {ov : Overrides}
    {acc : List AssignmentInfo × ℚ} {p : String × ℚ}
    (h : eligibleTaskB monsters u p = false) :
    assignStep monsters ge master u ov acc p = acc := by
  unfold eligibleTaskB at h
  unfold assignStep
  cases hl : monsters.lookup p.1 with
  | none => simp
  | some mi =>
    rw [hl] at h
    simp only [decide_eq_false_iff_not] at h
    simp [h]

theorem assignStep_eligible {monsters : Catalog} {ge : PriceOracle}
    {master : Master} {u : UserStats} {ov : Overrides}
    {acc : List AssignmentInfo × ℚ} {p : String × ℚ} {mi : Monster}
    (hl : monsters.lookup p.1 = some mi)
    (hc : mi.slayer_level_req ≤ u.user_slayer_level ∧
      mi.combat_level_req ≤ u.user_combat_level) :
    assignStep monsters ge master u ov acc p =
      (acc.1 ++ [mkAssignment ge master u ov p.1 p.2 mi], acc.2 + p.2) := by
  unfold assignStep
  rw [hl]
  simp [hc]

theorem collectAssignments_go {monsters : Catalog} {ge : PriceOracle}
    {master : Master} {u : UserStats} {ov : Overrides}
    (ts : List (String × ℚ)) (l : List AssignmentInfo) (w : ℚ) :
    List.foldl (assignStep monsters ge master u ov) (l, w) ts =
      (l ++ (eligListB monsters u ts).map (mkAssignmentSlug monsters ge master u ov),
        w + eligWeightB monsters u ts) := by
  induction ts generalizing l w with
  | nil => simp [eligListB, eligWeightB]
  | cons p ts ih =>
    simp only [List.foldl_cons]
    cases he : eligibleTaskB monsters u p with
    | false =>
      rw [assignStep_not_eligible he, ih l w]
      simp [eligListB, eligWeightB, List.filter_cons, he]
    | true =>
      have he' := he
      unfold eligibleTaskB at he'
      cases hl : monsters.lookup p.1 with
      | none => rw [hl] at he'; simp at he'
      | some mi =>
        rw [hl] at he'
        simp only [decide_eq_true_eq] at he'
        rw [assignStep_eligible hl he', ih]
        simp [eligListB, eligWeightB, List.filter_cons, he,
          mkAssignmentSlug, hl, List.append_assoc]
        ring

theorem collectAssignments_eq {monsters : Catalog} {ge : PriceOracle}
    {master : Master} {u : UserStats} {ov : Overrides}
    (ts : List (String × ℚ)) :
    collectAssignments monsters ge master u ov ts =
      ((eligListB monsters u ts).map (mkAssignmentSlug monsters ge master u ov),
        eligWeightB monsters u ts) := by
  unfold collectAssignments
  rw [collectAssignments_go ts [] 0]
  simp

theorem slayer_aggregate_eq {monsters : Catalog}
    {masters : List (String × Master)} {ge : PriceOracle}
    {params : SlayerParams} {ov : Overrides} {master : Master}
    (hm : masters.lookup params.slayer_master_id = some master)
    (hmode : params.calculation_mode ≠ "specific")
    (hreq : ¬(params.user.user_combat_level < master.combat_req ∨
      params.user.user_slayer_level < master.slayer_req))
    (hsafe : ∀ p ∈ master.task_assignments,
      safeTask monsters master params.user ov p = true) :
    calculate_slayer_gp_hr monsters masters ge params ov =
      .expectedOk {
        gp_hr := pyRound
          (if 0 < eligWeight monsters params.user master.task_assignments then
            eligGpWeight monsters ge master params.user ov master.task_assignments /
              eligWeight monsters params.user master.task_assignments
          else 0)
        master_name := master.name
        total_assignment_probability :=
          pyRoundTo (eligWeight monsters params.user master.task_assignments) 3
        eligible_tasks :=
          ((specDetails monsters ge master params.user ov params.calculation_mode
            master.task_assignments).filter (fun t => 0 < t.task_gp_hr)).length
        task_breakdown :=
          if params.calculation_mode = "breakdown" then
            some (sortDesc TaskDetail.weighted_contribution
              (specDetails monsters ge master params.user ov params.calculation_mode
                master.task_assignments))
          else none } := by
  unfold calculate_slayer_gp_hr
  rw [if_neg hmode, hm]
  simp only [if_neg hreq]
  rw [runTasks_safe_eq master.task_assignments hsafe ⟨0, 0, []⟩]
  simp

theorem runTasks_drop_not_eligible {monsters : Catalog} {ge : PriceOracle}
    {u : UserStats} {ov : Overrides} {mode : String} {master : Master}
    {p : String × ℚ} (ts₁ ts₂ : List (String × ℚ))
    (h : eligibleTask monsters u p = false) (acc : TaskAcc) :
    runTasks monsters ge u ov mode master (ts₁ ++ p :: ts₂) acc =
      runTasks monsters ge u ov mode master (ts₁ ++ ts₂) acc := by
  unfold runTasks
  rw [List.foldl_append, List.foldl_append, List.foldl_cons,
    processTask_not_eligible h]

theorem runTasks_master_quantity (monsters : Catalog) (ge : PriceOracle)
    (u : UserStats) (ov : Overrides) (mode : String) (m₁ m₂ : Master)
    (h : m₁.avg_task_quantity = m₂.avg_task_quantity)
    (ts : List (String × ℚ)) (acc : TaskAcc) :
    runTasks monsters ge u ov mode m₁ ts acc =
      runTasks monsters ge u ov mode m₂ ts acc := by
  unfold runTasks
  congr 1
  funext a p
  unfold processTask
  rw [h]

theorem calculate_drop_not_eligible {monsters : Catalog}
    {masters₁ masters₂ : List (String × Master)} {ge : PriceOracle}
    {params : SlayerParams} {ov : Overrides} {m₁ m₂ : Master}
    {ts₁ ts₂ : List (String × ℚ)} {p : String × ℚ}
    (hm₁ : masters₁.lookup params.slayer_master_id = some m₁)
    (hm₂ : masters₂.lookup params.slayer_master_id = some m₂)
    (hname : m₂.name = m₁.name)
    (hcr : m₂.combat_req = m₁.combat_req)
    (hsr : m₂.slayer_req = m₁.slayer_req)
    (hq : m₂.avg_task_quantity = m₁.avg_task_quantity)
    (ht₁ : m₁.task_assignments = ts₁ ++ p :: ts₂)
    (ht₂ : m₂.task_assignments = ts₁ ++ ts₂)
    (hinel : eligibleTask monsters params.user p = false) :
    calculate_slayer_gp_hr monsters masters₁ ge params ov =
      calculate_slayer_gp_hr monsters masters₂ ge params ov := by
  by_cases hmode : params.calculation_mode = "specific"
  · unfold calculate_slayer_gp_hr
    rw [if_pos hmode, if_pos hmode]
  · obtain ⟨n₁, c₁, s₁, a₁, q₁⟩ := m₁
    obtain ⟨n₂, c₂, s₂, a₂, q₂⟩ := m₂
    simp_all only [Master.mk.injEq]
    subst hname hcr hsr hq ht₁ ht₂
    unfold calculate_slayer_gp_hr
    simp only [if_neg hmode]
    rw [hm₁, hm₂]
    simp only []
    rw [runTasks_drop_not_eligible ts₁ ts₂ hinel]
    rw [runTasks_master_quantity monsters ge params.user ov
      params.calculation_mode ⟨n₂, c₂, s₂, ts₁ ++ p :: ts₂, q₂⟩
      ⟨n₂, c₂, s₂, ts₁ ++ ts₂, q₂⟩ rfl (ts₁ ++ ts₂) ⟨0, 0, []⟩]

theorem breakdown_assembler_eq {monsters : Catalog}
    {masters : List (String × Master)} {ge : PriceOracle}
    {slayer_master_id : String} {levels : UserLevels} {ov : Overrides}
    {master : Master}
    (hm : masters.lookup slayer_master_id = some master)
    (hne : monsters.isEmpty = false) :
    get_slayer_task_breakdown monsters masters ge slayer_master_id levels ov =
      .ok master.name slayer_master_id
        (sortDesc AssignmentInfo.gp_per_hour
          (asgProbList monsters ge master (toUserStats levels) ov
            master.task_assignments))
        (if (asgProbList monsters ge master (toUserStats levels) ov
            master.task_assignments).isEmpty then
          { expected_gp_per_hour := 0
            avg_gp_per_task := 0
            tasks_per_hour := 0
            available_tasks := 0
            total_possible_tasks := master.task_assignments.length }
        else
          { expected_gp_per_hour := pyRound (asgGpSum
              (asgProbList monsters ge master (toUserStats levels) ov
                master.task_assignments))
            avg_gp_per_task := pyRound (asgGpTaskSum
              (asgProbList monsters ge master (toUserStats levels) ov
                master.task_assignments))
            tasks_per_hour := pyRoundTo
              (if 0 < asgTimeSum (asgProbList monsters ge master
                  (toUserStats levels) ov master.task_assignments) then
                1 / asgTimeSum (asgProbList monsters ge master
                  (toUserStats levels) ov master.task_assignments)
              else 0) 2
            available_tasks := (asgProbList monsters ge master
              (toUserStats levels) ov master.task_assignments).length
            total_possible_tasks := master.task_assignments.length }) := by
  unfold get_slayer_task_breakdown
  rw [hm]
  simp only [hne, Bool.false_eq_true, if_false]
  rw [collectAssignments_eq]
  simp only [asgProbList, withProbs, asgGpSum, asgGpTaskSum, asgTimeSum]

theorem mem_insertDesc {α : Type} {key : α → ℤ} {x a : α} {l : List α} :
    a ∈ insertDesc key x l ↔ a = x ∨ a ∈ l := by
  induction l with
  | nil => simp [insertDesc]
  | cons y ys ih =>
    unfold insertDesc
    by_cases h : key x ≤ key y
    · simp [h, ih]
      tauto
    · simp [h]

theorem mem_sortDesc {α : Type} {key : α → ℤ} {a : α} {l : List α} :
    a ∈ sortDesc key l ↔ a ∈ l := by
  induction l with
  | nil => simp [sortDesc]
  | cons y ys ih =>
    unfold sortDesc
    rw [mem_insertDesc]
    simp [ih]

/-! Claim theorems. -/

/-- C3 (code-bug evidence): a drop entry whose price record exists but has
neither a high nor a low side is not skipped; `get_average_price` returns
`None`, the multiplication raises `TypeError`, and the handler of
`calculate_expected_loot` replaces the whole table value by the fallback
1000 instead of the 0 the claim requires. -/
theorem C3_sideless_price_fallback :
    calculate_expected_loot geBad dtBad = 1000 ∧ (1000 : ℚ) ≠ 0 := by decide

/-- C4: `estimate_kph` returns a kph override verbatim when one is present
for the target's slug, and otherwise a value clamped to
`[0.5 · mean(base_kph_range), 1.5 · mean(base_kph_range)]` (the interval
reading requires the base mean to be nonnegative). -/
theorem C4_estimate_kph_props (mi : Monster) (u : UserStats) (ov : Overrides) :
    (∀ v, ov ("kph_" ++ mi.wiki_slug) = some v → estimate_kph mi u ov = v) ∧
    (ov ("kph_" ++ mi.wiki_slug) = none → 0 ≤ baseKph mi →
      baseKph mi * 0.5 ≤ estimate_kph mi u ov ∧
        estimate_kph mi u ov ≤ baseKph mi * 1.5) := by
  constructor
  · intro v hv
    unfold estimate_kph
    rw [hv]
  · intro hov hb
    unfold estimate_kph
    simp only [hov]
    constructor
    · exact le_max_left _ _
    · apply max_le
      · nlinarith
      · exact min_le_left _ _

/-- Witness for C4 at concrete inputs: the override 100 is returned
verbatim, and without an override the estimate lies in the clamp
interval. -/
theorem C4_witness :
    estimate_kph mB1 userB ovB = 100 ∧
    (baseKph mB1 * 0.5 ≤ estimate_kph mB1 userB ovNone ∧
      estimate_kph mB1 userB ovNone ≤ baseKph mB1 * 1.5) :=
  ⟨(C4_estimate_kph_props mB1 userB ovB).1 100 (by decide),
    (C4_estimate_kph_props mB1 userB ovNone).2 (by decide) (by decide)⟩

/-- C5: when the user misses the dispenser's combat or slayer requirement,
the expected and breakdown modes return the requirements-not-met record
carrying required versus actual levels; the result is the same for every
monster catalog and price oracle, so no per-target work can influence
it. -/
theorem C5_dispenser_gate (monsters : Catalog)
    (masters : List (String × Master)) (ge : PriceOracle)
    (params : SlayerParams) (ov : Overrides) (master : Master)
    (hm : masters.lookup params.slayer_master_id = some master)
    (hmode : params.calculation_mode = "expected" ∨
      params.calculation_mode = "breakdown")
    (hreq : params.user.user_combat_level < master.combat_req ∨
      params.user.user_slayer_level < master.slayer_req) :
    calculate_slayer_gp_hr monsters masters ge params ov =
      .masterReqNotMet ("User does not meet requirements for " ++ master.name)
        ⟨master.combat_req, master.slayer_req, params.user.user_combat_level,
          params.user.user_slayer_level⟩ := by
  have hne : params.calculation_mode ≠ "specific" := by
    rcases hmode with h | h <;> rw [h] <;> decide
  unfold calculate_slayer_gp_hr
  rw [if_neg hne, hm]
  simp [if_pos hreq]

/-- Witness for C5: combat 100 against a combat-110 dispenser yields the
requirements record 110/50 versus 100/85. -/
theorem C5_witness :
    calculate_slayer_gp_hr monstersB mastersH geB paramsH ovNone =
      .masterReqNotMet "User does not meet requirements for Duradel"
        ⟨110, 50, 100, 85⟩ := by
  rw [C5_dispenser_gate monstersB mastersH geB paramsH ovNone masterHard
    (by decide) (Or.inl rfl) (by decide)]
  decide

/-- C7: `adjust_supply_cost` returns `base · override` when the
supply-cost multiplier override is present, and otherwise
`base · clamp(1 − (combat − 90)/200, 0.7, 1.3)`; no other case exists for
well-typed inputs, matching the claim's error clause vacuously. -/
theorem C7_adjust_supply_cost_props (base : ℚ) (u : UserStats) (ov : Overrides) :
    (∀ m, ov "supply_cost_multiplier" = some m →
      adjust_supply_cost base u ov = base * m) ∧
    (ov "supply_cost_multiplier" = none →
      adjust_supply_cost base u ov =
        base * clamp (1 - (u.user_combat_level - 90) / 200) 0.7 1.3) := by
  constructor
  · intro m hm
    unfold adjust_supply_cost
    rw [hm]
  · intro hov
    unfold adjust_supply_cost clamp
    simp only [hov]
    rw [max_min_distrib_left]
    have h13 : max (0.7 : ℚ) 1.3 = 1.3 := by decide
    rw [h13]

/-- Witness for C7: multiplier override 1.5 gives 150 from base 100;
without an override, combat 100 gives efficiency 0.95 and cost 95. -/
theorem C7_witness :
    adjust_supply_cost 100 userB ovM = 150 ∧
    adjust_supply_cost 100 userB ovNone = 95 := by
  constructor
  · rw [(C7_adjust_supply_cost_props 100 userB ovM).1 1.5 (by decide)]
    decide
  · rw [(C7_adjust_supply_cost_props 100 userB ovNone).2 (by decide)]
    decide

/-- C1 (amended): in expected mode, for a dispenser whose requirements the
user meets, the returned gp_hr is the Python rounding of
`Σ(task_gp_hr·weight) / Σ(weight)` with both sums over the eligible tasks
only, where the per-task formulas are exactly the ones the claim states
(the hypotheses require each eligible task to have a nonzero kill rate and
task time, as the claimed formulas presuppose). -/
theorem C1_expected_renormalized_gp_hr (monsters : Catalog)
    (masters : List (String × Master)) (ge : PriceOracle)
    (params : SlayerParams) (ov : Overrides) (master : Master)
    (hm : masters.lookup params.slayer_master_id = some master)
    (hmode : params.calculation_mode = "expected")
    (hreq : ¬(params.user.user_combat_level < master.combat_req ∨
      params.user.user_slayer_level < master.slayer_req))
    (hsafe : ∀ p ∈ master.task_assignments,
      safeTask monsters master params.user ov p = true)
    (hpos : 0 < eligWeight monsters params.user master.task_assignments) :
    resGpHr (calculate_slayer_gp_hr monsters masters ge params ov) =
      some (pyRound
        (eligGpWeight monsters ge master params.user ov master.task_assignments /
          eligWeight monsters params.user master.task_assignments)) := by
  have hne : params.calculation_mode ≠ "specific" := by rw [hmode]; decide
  rw [slayer_aggregate_eq hm hne hreq hsafe]
  simp [resGpHr, if_pos hpos]

/-- Witness for C1 at Scenario B: two eligible targets with weights
0.6/0.4 and task GP/hour 100/200 give gp_hr 140. -/
theorem C1_witness_scenario_b :
    resGpHr (calculate_slayer_gp_hr monstersB mastersB geB paramsB ovB) =
      some 140 := by
  rw [C1_expected_renormalized_gp_hr monstersB mastersB geB paramsB ovB masterB
    (by decide) rfl (by decide) (by decide) (by decide)]
  decide

/-- Counterexample to C1 as stated: a single eligible task of weight 1
with task GP/hour 200/3 makes the code return the rounded 67, not the
exact quotient 200/3. -/
theorem C1_counterexample :
    resGpHr (calculate_slayer_gp_hr monstersC mastersC geB paramsC ovC) =
      some 67 ∧
    eligGpWeight monstersC geB masterC1 userB ovC masterC1.task_assignments /
      eligWeight monstersC userB masterC1.task_assignments = 200 / 3 ∧
    ((67 : ℚ) ≠ 200 / 3) := by decide

/-- C2 (amended): in expected and breakdown modes the returned
total_assignment_probability is the eligible-weight sum rounded to three
decimals, and the returned eligible_tasks counts the stored breakdown
details with positive rounded task GP/hour — so it is 0 in expected mode
(whose details list is empty), not the size of the eligible subset. -/
theorem C2_probability_and_count (monsters : Catalog)
    (masters : List (String × Master)) (ge : PriceOracle)
    (params : SlayerParams) (ov : Overrides) (master : Master)
    (hm : masters.lookup params.slayer_master_id = some master)
    (hmode : params.calculation_mode = "expected" ∨
      params.calculation_mode = "breakdown")
    (hreq : ¬(params.user.user_combat_level < master.combat_req ∨
      params.user.user_slayer_level < master.slayer_req))
    (hsafe : ∀ p ∈ master.task_assignments,
      safeTask monsters master params.user ov p = true) :
    resTotalProb (calculate_slayer_gp_hr monsters masters ge params ov) =
      some (pyRoundTo (eligWeight monsters params.user master.task_assignments) 3) ∧
    resEligibleTasks (calculate_slayer_gp_hr monsters masters ge params ov) =
      some (((specDetails monsters ge master params.user ov
        params.calculation_mode master.task_assignments).filter
          (fun t => 0 < t.task_gp_hr)).length) ∧
    (params.calculation_mode = "expected" →
      resEligibleTasks (calculate_slayer_gp_hr monsters masters ge params ov) =
        some 0) := by
  have hne : params.calculation_mode ≠ "specific" := by
    rcases hmode with h | h <;> rw [h] <;> decide
  rw [slayer_aggregate_eq hm hne hreq hsafe]
  refine ⟨rfl, rfl, ?_⟩
  intro h
  simp [resEligibleTasks, specDetails, h]

/-- Witness for C2 at Scenario B in expected mode: the total assignment
probability is reported as 1 and eligible_tasks as 0. -/
theorem C2_witness :
    resTotalProb (calculate_slayer_gp_hr monstersB mastersB geB paramsB ovB) =
      some 1 ∧
    resEligibleTasks (calculate_slayer_gp_hr monstersB mastersB geB paramsB ovB) =
      some 0 := by
  obtain ⟨h1, _, h3⟩ := C2_probability_and_count monstersB mastersB geB paramsB
    ovB masterB (by decide) (Or.inl rfl) (by decide) (by decide)
  exact ⟨by rw [h1]; decide, h3 rfl⟩

/-- Counterexample to C2 as stated: two eligible tasks of weight 0.0002
each are reported with total_assignment_probability 0 (≠ the true sum
0.0004) and eligible_tasks 0 (≠ the subset size 2) in expected mode. -/
theorem C2_counterexample :
    resTotalProb (calculate_slayer_gp_hr monstersB mastersC2 geB paramsC2 ovB) =
      some 0 ∧
    eligWeight monstersB userB masterC2.task_assignments = 0.0004 ∧
    ((0 : ℚ) ≠ 0.0004) ∧
    resEligibleTasks (calculate_slayer_gp_hr monstersB mastersC2 geB paramsC2 ovB) =
      some 0 ∧
    (eligList monstersB userB masterC2.task_assignments).length = 2 := by decide

/-- C10: when no assignment is eligible (in particular when the assignment
table is empty), the accumulated probability is zero, the final division
is skipped by the positivity guard, and the call still succeeds with
gp_hr 0. -/
theorem C10_zero_eligible_guard (monsters : Catalog)
    (masters : List (String × Master)) (ge : PriceOracle)
    (params : SlayerParams) (ov : Overrides) (master : Master)
    (hm : masters.lookup params.slayer_master_id = some master)
    (hmode : params.calculation_mode = "expected" ∨
      params.calculation_mode = "breakdown")
    (hreq : ¬(params.user.user_combat_level < master.combat_req ∨
      params.user.user_slayer_level < master.slayer_req))
    (helig : eligList monsters params.user master.task_assignments = []) :
    calculate_slayer_gp_hr monsters masters ge params ov =
      .expectedOk ⟨0, master.name, 0, 0,
        if params.calculation_mode = "breakdown" then some [] else none⟩ := by
  have hne : params.calculation_mode ≠ "specific" := by
    rcases hmode with h | h <;> rw [h] <;> decide
  have hinel : ∀ p ∈ master.task_assignments,
      eligibleTask monsters params.user p = false := by
    intro p hp
    have := List.filter_eq_nil_iff.1 helig p hp
    simpa using this
  have hsafe : ∀ p ∈ master.task_assignments,
      safeTask monsters master params.user ov p = true :=
    fun p hp => eligibleTask_false_safe (hinel p hp)
  rw [slayer_aggregate_eq hm hne hreq hsafe]
  have hW : eligWeight monsters params.user master.task_assignments = 0 := by
    unfold eligWeight
    rw [helig]
    simp
  have hG : eligGpWeight monsters ge master params.user ov
      master.task_assignments = 0 := by
    unfold eligGpWeight
    rw [helig]
    simp
  have hz : pyRound 0 = 0 := by decide
  have hz3 : pyRoundTo 0 3 = 0 := by decide
  simp [hW, hG, specDetails, helig, hz, hz3, sortDesc]

/-- Witness for C10: a dispenser whose only task requires slayer 99
against a slayer-85 user succeeds with gp_hr 0. -/
theorem C10_witness :
    calculate_slayer_gp_hr monstersE mastersE geB paramsE ovNone =
      .expectedOk ⟨0, "Krystilia", 0, 0, none⟩ := by
  rw [C10_zero_eligible_guard monstersE mastersE geB paramsE ovNone masterE
    (by decide) (Or.inl rfl) (by decide) (by decide)]
  decide

/-- C6: a specific-mode call for a target whose slayer requirement exceeds
the user's level fails outright with the requirements record pairing the
target's required level with the user's actual level, while in the
aggregation modes removing such an assignment from the dispenser's table
does not change the result — the target is merely excluded from the
accumulation. -/
theorem C6_target_gate :
    (∀ (monsters : Catalog) (masters : List (String × Master))
      (ge : PriceOracle) (params : SlayerParams) (ov : Overrides)
      (id : String) (mi : Monster),
      params.calculation_mode = "specific" →
      params.specific_monster_id = some id →
      ¬id = "" →
      monsters.lookup id = some mi →
      params.user.user_slayer_level < mi.slayer_level_req →
      calculate_slayer_gp_hr monsters masters ge params ov =
        .monsterReqNotMet ("Insufficient Slayer level for " ++ mi.name)
          mi.slayer_level_req params.user.user_slayer_level) ∧
    (∀ (monsters : Catalog) (masters₁ masters₂ : List (String × Master))
      (ge : PriceOracle) (params : SlayerParams) (ov : Overrides)
      (m₁ m₂ : Master) (ts₁ ts₂ : List (String × ℚ)) (p : String × ℚ),
      masters₁.lookup params.slayer_master_id = some m₁ →
      masters₂.lookup params.slayer_master_id = some m₂ →
      m₂.name = m₁.name →
      m₂.combat_req = m₁.combat_req →
      m₂.slayer_req = m₁.slayer_req →
      m₂.avg_task_quantity = m₁.avg_task_quantity →
      m₁.task_assignments = ts₁ ++ p :: ts₂ →
      m₂.task_assignments = ts₁ ++ ts₂ →
      eligibleTask monsters params.user p = false →
      calculate_slayer_gp_hr monsters masters₁ ge params ov =
        calculate_slayer_gp_hr monsters masters₂ ge params ov) := by
  constructor
  · intro monsters masters ge params ov id mi hmode hid hne hl hreq
    unfold calculate_slayer_gp_hr
    rw [if_pos hmode, hid]
    simp only [if_neg hne]
    unfold calculate_specific_monster_gp_hr
    rw [hl]
    simp [if_pos hreq]
  · intro monsters masters₁ masters₂ ge params ov m₁ m₂ ts₁ ts₂ p
      hm₁ hm₂ hname hcr hsr hq ht₁ ht₂ hinel
    exact calculate_drop_not_eligible hm₁ hm₂ hname hcr hsr hq ht₁ ht₂ hinel

/-- Witness for C6 at Scenario D: slayer requirement 75 against user level
50 in specific mode yields the 75-versus-50 requirements record, and in
expected mode dropping that ineligible assignment leaves the result
unchanged. -/
theorem C6_witness :
    calculate_slayer_gp_hr monstersD [] geB paramsD ovNone =
      .monsterReqNotMet "Insufficient Slayer level for Smoke Devil" 75 50 ∧
    calculate_slayer_gp_hr monstersD6 mastersDrop1 geB paramsDrop ovNone =
      calculate_slayer_gp_hr monstersD6 mastersDrop2 geB paramsDrop ovNone := by
  constructor
  · rw [C6_target_gate.1 monstersD [] geB paramsD ovNone "smoke_devil" mSmoke
      rfl rfl (by decide) (by decide) (by decide)]
    decide
  · exact C6_target_gate.2 monstersD6 mastersDrop1 mastersDrop2 geB paramsDrop
      ovNone masterDrop1 masterDrop2 [("m1", 0.6)] [] ("smoke_devil", 0.4)
      (by decide) (by decide) rfl rfl rfl rfl rfl rfl (by decide)

/-- C8 (amended): in the breakdown assembler, eligibility checks both the
slayer and the combat requirement; each reported assignment's probability
equals its weight over the sum of eligible weights; the reported overall
expected_gp_per_hour is the Python rounding of
`Σ(gp_per_hour_i · probability_i)` taken over the rounded per-assignment
gp values; and the reported tasks_per_hour is the two-decimal rounding of
`1 / Σ(time_per_task_i · probability_i)` taken over the rounded
per-assignment times. -/
theorem C8_assembler_props (monsters : Catalog)
    (masters : List (String × Master)) (ge : PriceOracle) (id : String)
    (levels : UserLevels) (ov : Overrides) (master : Master)
    (hm : masters.lookup id = some master)
    (hne : monsters.isEmpty = false)
    (hW : 0 < eligWeightB monsters (toUserStats levels) master.task_assignments)
    (hT : 0 < asgTimeSum (asgProbList monsters ge master (toUserStats levels)
      ov master.task_assignments)) :
    (∀ asgs,
      brAssignments (get_slayer_task_breakdown monsters masters ge id levels ov) =
        some asgs →
      ∀ a ∈ asgs, a.probability =
        a.weight / eligWeightB monsters (toUserStats levels) master.task_assignments) ∧
    brOverall (get_slayer_task_breakdown monsters masters ge id levels ov) =
      some {
        expected_gp_per_hour := pyRound (asgGpSum (asgProbList monsters ge
          master (toUserStats levels) ov master.task_assignments))
        avg_gp_per_task := pyRound (asgGpTaskSum (asgProbList monsters ge
          master (toUserStats levels) ov master.task_assignments))
        tasks_per_hour := pyRoundTo (1 / asgTimeSum (asgProbList monsters ge
          master (toUserStats levels) ov master.task_assignments)) 2
        available_tasks :=
          (eligListB monsters (toUserStats levels) master.task_assignments).length
        total_possible_tasks := master.task_assignments.length } := by
  have hnil : eligListB monsters (toUserStats levels) master.task_assignments ≠ [] := by
    intro h
    unfold eligWeightB at hW
    rw [h] at hW
    simp at hW
  have hLne : (asgProbList monsters ge master (toUserStats levels) ov
      master.task_assignments).isEmpty = false := by
    unfold asgProbList withProbs
    cases hc : eligListB monsters (toUserStats levels) master.task_assignments with
    | nil => exact absurd hc hnil
    | cons x xs => simp
  rw [breakdown_assembler_eq hm hne]
  constructor
  · intro asgs hasgs a ha
    simp only [brAssignments, Option.some.injEq] at hasgs
    rw [← hasgs] at ha
    rw [mem_sortDesc] at ha
    unfold asgProbList withProbs at ha
    rw [List.mem_map] at ha
    obtain ⟨b, _, rfl⟩ := ha
    simp [if_pos hW]
  · simp only [brOverall, hLne, Bool.false_eq_true, if_false, if_pos hT]
    have hlen : (asgProbList monsters ge master (toUserStats levels) ov
        master.task_assignments).length =
        (eligListB monsters (toUserStats levels) master.task_assignments).length := by
      unfold asgProbList withProbs
      simp
    rw [hlen]

/-- Witness for C8: with two eligible assignments of weights 0.6/0.4,
rounded gp values 200/400 and rounded times 0.1/0.1, the overall record
is (280, 28, 10, 2, 2). -/
theorem C8_witness :
    brOverall (get_slayer_task_breakdown monstersB mastersB geB "spria" levelsB ovB) =
      some ⟨280, 28, 10, 2, 2⟩ := by
  rw [(C8_assembler_props monstersB mastersB geB "spria" levelsB ovB masterB
    (by decide) (by decide) (by decide) (by decide)).2]
  decide

/-- Counterexample to C8 as stated: a single eligible assignment of
weight 1 with true GP/hour 100.4 is reported with overall
expected_gp_per_hour 100 (the rounding of the rounded per-assignment
value), not `Σ(gp_per_hour_i · probability_i) = 100.4`. -/
theorem C8_counterexample :
    (brOverall (get_slayer_task_breakdown monstersX mastersX geB "cha" levelsB ovX)).map
        BreakdownOverall.expected_gp_per_hour = some 100 ∧
    (brAssignments (get_slayer_task_breakdown monstersX mastersX geB "cha" levelsB ovX)).map
        (List.map AssignmentInfo.probability) = some [1] ∧
    estimate_kph mX (toUserStats levelsB) ovX * calculate_expected_loot geB mX.drop_table -
      adjust_supply_cost mX.common_supply_cost_per_hour_base (toUserStats levelsB) ovX =
        100.4 ∧
    ((100 : ℚ) ≠ 100.4) := by decide

end OSRS

end RatReduction
